import Mathlib

/-!
Shallow embedding of the payme backend's month aggregation, lifecycle and
CRUD handlers (src/backend/src/handlers/{months,items,income,budget,
fixed_expenses}.rs and src/backend/src/error.rs).

Modelling conventions:
  * The SQLite database is a record of row lists (`Db`).  `INSERT ...
    RETURNING id` is modelled with a single autoincrement counter
    `Db.next_id`; the concrete id values never matter to the properties,
    only their freshness.
  * Monetary amounts (`f64` in the source) are modelled as exact rationals
    `Rat`; every property at stake is about which rows are aggregated, not
    about floating-point rounding.
  * `chrono::NaiveDate` / timestamps are modelled as `Int` day numbers.
  * A handler that mutates the store returns `Except PaymeError α × Db`:
    the result (body or error) together with the store after the call.
    An HTTP 204 No Content success is `.ok ()`.
  * SQL point lookups (`WHERE id = ? [AND user_id = ?] ... fetch_optional`)
    become `List.find?`; `id` is the table's primary key, so the unique
    matching row is the first one.  Joins on the primary key
    `budget_categories.id` become `find?`-based lookups for the same
    reason.  `ORDER BY spent_on DESC` is an insertion sort with the
    matching comparator.
  * The external PDF renderer (`pdf::generate_pdf`) and the fallibility of
    the snapshot `INSERT` are parameters of `close_month` so that its
    error paths can be analysed.
-/

namespace Payme

/-- Row of the `months` table. -/
structure MonthRow where
  id : Int
  user_id : Int
  year : Int
  month : Int
  is_closed : Bool
  closed_at : Option Int
deriving Repr, DecidableEq

/-- Row of the `budget_categories` table. -/
structure BudgetCategoryRow where
  id : Int
  user_id : Int
  label : String
  default_amount : Rat
deriving Repr, DecidableEq

/-- Row of the `fixed_expenses` table. -/
structure FixedExpenseRow where
  id : Int
  user_id : Int
  label : String
  amount : Rat
deriving Repr, DecidableEq

/-- Row of the `monthly_budgets` table. -/
structure MonthlyBudgetRow where
  id : Int
  month_id : Int
  category_id : Int
  allocated_amount : Rat
deriving Repr, DecidableEq

/-- Row of the `income_entries` table. -/
structure IncomeEntryRow where
  id : Int
  month_id : Int
  label : String
  amount : Rat
deriving Repr, DecidableEq

/-- Row of the `items` table. -/
structure ItemRow where
  id : Int
  month_id : Int
  category_id : Int
  description : String
  amount : Rat
  spent_on : Int
deriving Repr, DecidableEq

/-- Row of the `monthly_snapshots` table; `pdf_data` is the report bytes. -/
structure SnapshotRow where
  month_id : Int
  pdf_data : List Nat
deriving Repr, DecidableEq

/-- The SQLite store. -/
structure Db where
  next_id : Int
  months : List MonthRow
  budget_categories : List BudgetCategoryRow
  fixed_expenses : List FixedExpenseRow
  monthly_budgets : List MonthlyBudgetRow
  income_entries : List IncomeEntryRow
  items : List ItemRow
  monthly_snapshots : List SnapshotRow
deriving Repr, DecidableEq

/-- Embedding of `PaymeError` from src/backend/src/error.rs. -/
inductive PaymeError where
  | Database : String → PaymeError
  | Validation : PaymeError
  | NotFound : PaymeError
  | Unauthorized : PaymeError
  | BadRequest : String → PaymeError
  | Internal : String → PaymeError
deriving Repr, DecidableEq

deriving instance DecidableEq for Except

/-- Embedding of `SELECT ... FROM months WHERE id = ? AND user_id = ?` (fetch_optional). -/
def monthByIdAndUser (db : Db) (month_id user_id : Int) : Option MonthRow :=
  db.months.find? (fun m => m.id == month_id && m.user_id == user_id)

/-- Embedding of `SELECT ... FROM months WHERE id = ?` (fetch_one, pk lookup). -/
def monthById (db : Db) (month_id : Int) : Option MonthRow :=
  db.months.find? (fun m => m.id == month_id)

/-- Embedding of `SELECT ... FROM budget_categories WHERE id = ?` (pk lookup, join side). -/
def categoryById (db : Db) (category_id : Int) : Option BudgetCategoryRow :=
  db.budget_categories.find? (fun c => c.id == category_id)

/-- Embedding of `SELECT id FROM budget_categories WHERE id = ? AND user_id = ?`. -/
def categoryByIdAndUser (db : Db) (category_id user_id : Int) :
    Option BudgetCategoryRow :=
  db.budget_categories.find? (fun c => c.id == category_id && c.user_id == user_id)

/-- Joined row returned for a monthly budget (struct `MonthlyBudgetWithCategory`). -/
structure MonthlyBudgetWithCategory where
  id : Int
  month_id : Int
  category_id : Int
  category_label : String
  allocated_amount : Rat
  spent_amount : Rat
deriving Repr, DecidableEq

/-- Joined row returned for an item (struct `ItemWithCategory`). -/
structure ItemWithCategory where
  id : Int
  month_id : Int
  category_id : Int
  category_label : String
  description : String
  amount : Rat
  spent_on : Int
deriving Repr, DecidableEq

/-- The aggregated summary (struct `MonthSummary`). -/
structure MonthSummary where
  month : MonthRow
  income_entries : List IncomeEntryRow
  fixed_expenses : List FixedExpenseRow
  budgets : List MonthlyBudgetWithCategory
  items : List ItemWithCategory
  total_income : Rat
  total_fixed : Rat
  total_budgeted : Rat
  total_spent : Rat
  remaining : Rat
deriving Repr, DecidableEq

/-- Embedding of `SELECT mb.*, bc.label FROM monthly_budgets mb JOIN budget_categories bc
ON mb.category_id = bc.id WHERE mb.month_id = ?`.  The inner join on the
primary key `bc.id` keeps exactly the allocations whose category row still
exists.  `spent_amount` starts at 0 as in the source. -/
def budgetJoinRow (mb : MonthlyBudgetRow) (bc : BudgetCategoryRow) :
    MonthlyBudgetWithCategory :=
  { id := mb.id, month_id := mb.month_id, category_id := mb.category_id,
    category_label := bc.label, allocated_amount := mb.allocated_amount,
    spent_amount := 0 }

/-- Join step for one allocation row: the unique category row with the
matching primary key, or nothing when the category was deleted. -/
def joinBudget (db : Db) (mb : MonthlyBudgetRow) :
    Option MonthlyBudgetWithCategory :=
  (categoryById db mb.category_id).map (budgetJoinRow mb)

def joinedBudgets (db : Db) (month_id : Int) : List MonthlyBudgetWithCategory :=
  (db.monthly_budgets.filter (fun mb => mb.month_id == month_id)).filterMap
    (joinBudget db)

/-- Embedding of `SELECT i.*, bc.label FROM items i JOIN budget_categories bc
ON i.category_id = bc.id WHERE i.month_id = ?` (without the ORDER BY). -/
def itemJoinRow (i : ItemRow) (bc : BudgetCategoryRow) : ItemWithCategory :=
  { id := i.id, month_id := i.month_id, category_id := i.category_id,
    category_label := bc.label, description := i.description,
    amount := i.amount, spent_on := i.spent_on }

/-- Join step for one item row: the unique category row with the matching
primary key, or nothing when the category was deleted. -/
def joinItem (db : Db) (i : ItemRow) : Option ItemWithCategory :=
  (categoryById db i.category_id).map (itemJoinRow i)

def joinedItems (db : Db) (month_id : Int) : List ItemWithCategory :=
  (db.items.filter (fun i => i.month_id == month_id)).filterMap (joinItem db)

/-- Embedding of `ORDER BY i.spent_on DESC`. -/
def sortBySpentOnDesc (l : List ItemWithCategory) : List ItemWithCategory :=
  List.insertionSort (fun a b => b.spent_on ≤ a.spent_on) l

/-- Embedding of `get_month_summary` from src/backend/src/handlers/months.rs.  The first
`fetch_one` fails with a database error when the month row is absent. -/
def get_month_summary (db : Db) (user_id month_id : Int) :
    Except PaymeError MonthSummary :=
  match monthById db month_id with
  | none => .error (.Database "RowNotFound")
  | some month =>
    let income_entries := db.income_entries.filter (fun e => e.month_id == month_id)
    let fixed_expenses := db.fixed_expenses.filter (fun e => e.user_id == user_id)
    let items := sortBySpentOnDesc (joinedItems db month_id)
    let budgets := (joinedBudgets db month_id).map (fun b =>
      { b with spent_amount :=
          ((items.filter (fun i => i.category_id == b.category_id)).map
            (fun i => i.amount)).sum })
    let total_income := (income_entries.map (fun e => e.amount)).sum
    let total_fixed := (fixed_expenses.map (fun e => e.amount)).sum
    let total_budgeted := (budgets.map (fun b => b.allocated_amount)).sum
    let total_spent := (items.map (fun i => i.amount)).sum
    let remaining := total_income - total_fixed - total_spent
    .ok { month := month, income_entries := income_entries,
          fixed_expenses := fixed_expenses, budgets := budgets, items := items,
          total_income := total_income, total_fixed := total_fixed,
          total_budgeted := total_budgeted, total_spent := total_spent,
          remaining := remaining }

/-- Embedding of `get_month` from months.rs: ownership-scoped lookup, then the summary. -/
def get_month (db : Db) (user_id month_id : Int) : Except PaymeError MonthSummary :=
  match monthByIdAndUser db month_id user_id with
  | none => .error .NotFound
  | some m => get_month_summary db user_id m.id

/-- Embedding of `verify_month_access` from items.rs / income.rs. -/
def verify_month_access (db : Db) (user_id month_id : Int) :
    Except PaymeError Unit :=
  match monthByIdAndUser db month_id user_id with
  | some _ => .ok ()
  | none => .error .NotFound

/-- Embedding of `verify_month_not_closed` from items.rs / income.rs. -/
def verify_month_not_closed (db : Db) (user_id month_id : Int) :
    Except PaymeError Unit :=
  match monthByIdAndUser db month_id user_id with
  | some m =>
    if m.is_closed then .error (.BadRequest "Month is closed") else .ok ()
  | none => .error .NotFound

/-- Payload `CreateIncome` (income.rs). -/
structure CreateIncome where
  label : String
  amount : Rat
deriving Repr, DecidableEq

/-- Validator derive on `CreateIncome`: label length in [1,100], amount ≥ 0. -/
def CreateIncome.validate (p : CreateIncome) : Except PaymeError Unit :=
  if 1 ≤ p.label.length ∧ p.label.length ≤ 100 ∧ 0 ≤ p.amount then .ok ()
  else .error .Validation

/-- Payload `UpdateIncome` (income.rs). -/
structure UpdateIncome where
  label : Option String
  amount : Option Rat
deriving Repr, DecidableEq

/-- Validator derive on `UpdateIncome`: constraints apply to present fields. -/
def UpdateIncome.validate (p : UpdateIncome) : Except PaymeError Unit :=
  if (∀ l ∈ p.label, 1 ≤ l.length ∧ l.length ≤ 100) ∧ (∀ a ∈ p.amount, 0 ≤ a)
  then .ok () else .error .Validation

/-- Embedding of `create_income` (income.rs). -/
def create_income (db : Db) (user_id month_id : Int) (payload : CreateIncome) :
    Except PaymeError IncomeEntryRow × Db :=
  match payload.validate with
  | .error e => (.error e, db)
  | .ok () =>
    match verify_month_not_closed db user_id month_id with
    | .error e => (.error e, db)
    | .ok () =>
      let entry : IncomeEntryRow :=
        { id := db.next_id, month_id := month_id, label := payload.label,
          amount := payload.amount }
      (.ok entry,
        { db with next_id := db.next_id + 1,
                  income_entries := db.income_entries ++ [entry] })

/-- Embedding of `update_income` (income.rs): the UPDATE statement is keyed by id only. -/
def update_income (db : Db) (user_id month_id income_id : Int)
    (payload : UpdateIncome) : Except PaymeError IncomeEntryRow × Db :=
  match payload.validate with
  | .error e => (.error e, db)
  | .ok () =>
    match verify_month_not_closed db user_id month_id with
    | .error e => (.error e, db)
    | .ok () =>
      match db.income_entries.find?
          (fun e => e.id == income_id && e.month_id == month_id) with
      | none => (.error .NotFound, db)
      | some existing =>
        let label := payload.label.getD existing.label
        let amount := payload.amount.getD existing.amount
        let db1 := { db with income_entries := db.income_entries.map (fun e =>
          if e.id == income_id then { e with label := label, amount := amount }
          else e) }
        (.ok { id := income_id, month_id := month_id, label := label,
               amount := amount }, db1)

/-- Embedding of `delete_income` (income.rs): `DELETE WHERE id = ? AND month_id = ?`,
success (204) regardless of whether a row matched. -/
def delete_income (db : Db) (user_id month_id income_id : Int) :
    Except PaymeError Unit × Db :=
  match verify_month_not_closed db user_id month_id with
  | .error e => (.error e, db)
  | .ok () =>
    let remaining := db.income_entries.filter
      (fun e => !(e.id == income_id && e.month_id == month_id))
    (.ok (), { db with income_entries := remaining })

/-- Payload `CreateItem` (items.rs). -/
structure CreateItem where
  category_id : Int
  description : String
  amount : Rat
  spent_on : Int
deriving Repr, DecidableEq

/-- Validator derive on `CreateItem`: description length in [1,200], amount ≥ 0. -/
def CreateItem.validate (p : CreateItem) : Except PaymeError Unit :=
  if 1 ≤ p.description.length ∧ p.description.length ≤ 200 ∧ 0 ≤ p.amount
  then .ok () else .error .Validation

/-- Payload `UpdateItem` (items.rs). -/
structure UpdateItem where
  category_id : Option Int
  description : Option String
  amount : Option Rat
  spent_on : Option Int
deriving Repr, DecidableEq

/-- Validator derive on `UpdateItem`. -/
def UpdateItem.validate (p : UpdateItem) : Except PaymeError Unit :=
  if (∀ d ∈ p.description, 1 ≤ d.length ∧ d.length ≤ 200) ∧
      (∀ a ∈ p.amount, 0 ≤ a)
  then .ok () else .error .Validation

/-- Embedding of `create_item` (items.rs): validation, closed-month guard, then the
category-ownership check that fails with `BadRequest "Invalid category"`. -/
def create_item (db : Db) (user_id month_id : Int) (payload : CreateItem) :
    Except PaymeError ItemRow × Db :=
  match payload.validate with
  | .error e => (.error e, db)
  | .ok () =>
    match verify_month_not_closed db user_id month_id with
    | .error e => (.error e, db)
    | .ok () =>
      match categoryByIdAndUser db payload.category_id user_id with
      | none => (.error (.BadRequest "Invalid category"), db)
      | some _ =>
        let row : ItemRow :=
          { id := db.next_id, month_id := month_id,
            category_id := payload.category_id,
            description := payload.description, amount := payload.amount,
            spent_on := payload.spent_on }
        (.ok row, { db with next_id := db.next_id + 1,
                            items := db.items ++ [row] })

/-- Embedding of `update_item` (items.rs): the category check runs only when a new
category id is supplied; the UPDATE statement is keyed by id only. -/
def update_item (db : Db) (user_id month_id item_id : Int)
    (payload : UpdateItem) : Except PaymeError ItemRow × Db :=
  match payload.validate with
  | .error e => (.error e, db)
  | .ok () =>
    match verify_month_not_closed db user_id month_id with
    | .error e => (.error e, db)
    | .ok () =>
      match db.items.find? (fun i => i.id == item_id && i.month_id == month_id) with
      | none => (.error .NotFound, db)
      | some existing =>
        let category_id := payload.category_id.getD existing.category_id
        let description := payload.description.getD existing.description
        let amount := payload.amount.getD existing.amount
        let spent_on := payload.spent_on.getD existing.spent_on
        let catOk : Except PaymeError Unit :=
          if payload.category_id.isSome then
            match categoryByIdAndUser db category_id user_id with
            | none => .error (.BadRequest "Invalid category")
            | some _ => .ok ()
          else .ok ()
        match catOk with
        | .error e => (.error e, db)
        | .ok () =>
          let db1 := { db with items := db.items.map (fun i =>
            if i.id == item_id then
              { i with category_id := category_id, description := description,
                       amount := amount, spent_on := spent_on }
            else i) }
          (.ok { id := item_id, month_id := month_id, category_id := category_id,
                 description := description, amount := amount,
                 spent_on := spent_on }, db1)

/-- Embedding of `delete_item` (items.rs): `DELETE WHERE id = ? AND month_id = ?`,
success (204) regardless of whether a row matched. -/
def delete_item (db : Db) (user_id month_id item_id : Int) :
    Except PaymeError Unit × Db :=
  match verify_month_not_closed db user_id month_id with
  | .error e => (.error e, db)
  | .ok () =>
    let remaining := db.items.filter
      (fun i => !(i.id == item_id && i.month_id == month_id))
    (.ok (), { db with items := remaining })

/-- Payload `CreateCategory` (budget.rs). -/
structure CreateCategory where
  label : String
  default_amount : Rat
deriving Repr, DecidableEq

/-- Validator derive on `CreateCategory`: label length in [1,100], amount ≥ 0. -/
def CreateCategory.validate (p : CreateCategory) : Except PaymeError Unit :=
  if 1 ≤ p.label.length ∧ p.label.length ≤ 100 ∧ 0 ≤ p.default_amount
  then .ok () else .error .Validation

/-- Embedding of `INSERT OR IGNORE INTO monthly_budgets (month_id, category_id,
allocated_amount)`: a no-op when a row for the (month, category) pair is
already present. -/
def insertOrIgnoreBudget (db : Db) (month_id category_id : Int)
    (allocated_amount : Rat) : Db :=
  if db.monthly_budgets.any
      (fun b => b.month_id == month_id && b.category_id == category_id) then db
  else
    { db with next_id := db.next_id + 1,
              monthly_budgets := db.monthly_budgets ++
                [{ id := db.next_id, month_id := month_id,
                   category_id := category_id,
                   allocated_amount := allocated_amount }] }

/-- The propagation loop of `create_category`: one ignore-on-duplicate
insert per open month id. -/
def propagateToMonths (category_id : Int) (amount : Rat) :
    List Int → Db → Db
  | [], db => db
  | mid :: rest, db =>
    propagateToMonths category_id amount rest
      (insertOrIgnoreBudget db mid category_id amount)

/-- Embedding of `create_category` (budget.rs): insert the template, then propagate the
default amount into every month of the user with `is_closed = 0`. -/
def create_category (db : Db) (user_id : Int) (payload : CreateCategory) :
    Except PaymeError BudgetCategoryRow × Db :=
  match payload.validate with
  | .error e => (.error e, db)
  | .ok () =>
    let cat : BudgetCategoryRow :=
      { id := db.next_id, user_id := user_id, label := payload.label,
        default_amount := payload.default_amount }
    let db1 := { db with next_id := db.next_id + 1,
                         budget_categories := db.budget_categories ++ [cat] }
    let open_month_ids := (db1.months.filter
      (fun m => m.user_id == user_id && m.is_closed == false)).map (fun m => m.id)
    (.ok cat, propagateToMonths cat.id payload.default_amount open_month_ids db1)

/-- Embedding of `delete_category` (budget.rs): `DELETE WHERE id = ? AND user_id = ?`,
success (204) regardless of whether a row matched. -/
def delete_category (db : Db) (user_id category_id : Int) :
    Except PaymeError Unit × Db :=
  let remaining := db.budget_categories.filter
    (fun c => !(c.id == category_id && c.user_id == user_id))
  (.ok (), { db with budget_categories := remaining })

/-- Payload `UpdateMonthlyBudget` (budget.rs). -/
structure UpdateMonthlyBudget where
  allocated_amount : Rat
deriving Repr, DecidableEq

/-- Validator derive on `UpdateMonthlyBudget`: amount ≥ 0. -/
def UpdateMonthlyBudget.validate (p : UpdateMonthlyBudget) :
    Except PaymeError Unit :=
  if 0 ≤ p.allocated_amount then .ok () else .error .Validation

/-- Embedding of `update_monthly_budget` (budget.rs): ownership lookup, closed-month
check, allocation lookup scoped to the month, update keyed by id. -/
def update_monthly_budget (db : Db) (user_id month_id budget_id : Int)
    (payload : UpdateMonthlyBudget) : Except PaymeError MonthlyBudgetRow × Db :=
  match payload.validate with
  | .error e => (.error e, db)
  | .ok () =>
    match monthByIdAndUser db month_id user_id with
    | none => (.error .NotFound, db)
    | some month =>
      if month.is_closed then (.error (.BadRequest "Month is closed"), db)
      else
        match db.monthly_budgets.find?
            (fun b => b.id == budget_id && b.month_id == month_id) with
        | none => (.error .NotFound, db)
        | some existing =>
          let updated := db.monthly_budgets.map (fun b =>
            if b.id == budget_id then
              { b with allocated_amount := payload.allocated_amount } else b)
          let db1 := { db with monthly_budgets := updated }
          (.ok { id := budget_id, month_id := month_id,
                 category_id := existing.category_id,
                 allocated_amount := payload.allocated_amount }, db1)

/-- Payload `CreateFixedExpense` (fixed_expenses.rs).  The source derives
no validator for it and the handler performs no validation call. -/
structure CreateFixedExpense where
  label : String
  amount : Rat
deriving Repr, DecidableEq

/-- Payload `UpdateFixedExpense` (fixed_expenses.rs), also unvalidated. -/
structure UpdateFixedExpense where
  label : Option String
  amount : Option Rat
deriving Repr, DecidableEq

/-- Embedding of `create_fixed_expense` (fixed_expenses.rs): a bare insert, no
validation of the payload. -/
def create_fixed_expense (db : Db) (user_id : Int)
    (payload : CreateFixedExpense) : Except PaymeError FixedExpenseRow × Db :=
  let row : FixedExpenseRow :=
    { id := db.next_id, user_id := user_id, label := payload.label,
      amount := payload.amount }
  (.ok row, { db with next_id := db.next_id + 1,
                      fixed_expenses := db.fixed_expenses ++ [row] })

/-- Embedding of `update_fixed_expense` (fixed_expenses.rs): ownership-scoped lookup,
then an update keyed by id; no validation of the payload. -/
def update_fixed_expense (db : Db) (user_id expense_id : Int)
    (payload : UpdateFixedExpense) : Except PaymeError FixedExpenseRow × Db :=
  match db.fixed_expenses.find?
      (fun e => e.id == expense_id && e.user_id == user_id) with
  | none => (.error .NotFound, db)
  | some existing =>
    let label := payload.label.getD existing.label
    let amount := payload.amount.getD existing.amount
    let db1 := { db with fixed_expenses := db.fixed_expenses.map (fun e =>
      if e.id == expense_id then { e with label := label, amount := amount }
      else e) }
    (.ok { id := expense_id, user_id := user_id, label := label,
           amount := amount }, db1)

/-- Embedding of `delete_fixed_expense` (fixed_expenses.rs): `DELETE WHERE id = ? AND
user_id = ?`, success (204) regardless of whether a row matched. -/
def delete_fixed_expense (db : Db) (user_id expense_id : Int) :
    Except PaymeError Unit × Db :=
  let remaining := db.fixed_expenses.filter
    (fun e => !(e.id == expense_id && e.user_id == user_id))
  (.ok (), { db with fixed_expenses := remaining })

/-- Embedding of `UPDATE months SET is_closed = 1, closed_at = ? WHERE id = ?`,
applied to one row. -/
def closeMonthUpdate (month_id now : Int) (m : MonthRow) : MonthRow :=
  if m.id == month_id then { m with is_closed := true, closed_at := some now }
  else m

/-- Embedding of `close_month` (months.rs).  `render` stands for the external
`pdf::generate_pdf`; `snapshotInsertOk` stands for the success of the
snapshot `INSERT` (its failure surfaces as a database error).  The source
inserts the snapshot first and only then flips `is_closed`. -/
def close_month (render : MonthSummary → Except String (List Nat))
    (snapshotInsertOk : Bool) (now : Int) (db : Db) (user_id month_id : Int) :
    Except PaymeError MonthRow × Db :=
  match monthByIdAndUser db month_id user_id with
  | none => (.error .NotFound, db)
  | some month =>
    if month.is_closed then (.error (.BadRequest "Month is already closed"), db)
    else
      match get_month_summary db user_id month_id with
      | .error e => (.error e, db)
      | .ok summary =>
        match render summary with
        | .error e => (.error (.Internal e), db)
        | .ok pdf_data =>
          if snapshotInsertOk then
            let snap : SnapshotRow := { month_id := month_id, pdf_data := pdf_data }
            let db1 := { db with monthly_snapshots := db.monthly_snapshots ++ [snap] }
            let db2 := { db1 with months := db1.months.map (closeMonthUpdate month_id now) }
            match monthById db2 month_id with
            | none => (.error (.Database "RowNotFound"), db2)
            | some updated => (.ok updated, db2)
          else (.error (.Database "InsertFailed"), db)

/-! Concrete stores used to exercise the theorems on explicit inputs. -/

/-- An empty store. -/
def dbEmpty : Db :=
  { next_id := 1, months := [], budget_categories := [], fixed_expenses := [],
    monthly_budgets := [], income_entries := [], items := [],
    monthly_snapshots := [] }

/-- A store with one open month for user 1, one category, one allocation,
one income entry, one fixed expense and one item. -/
def dbOpen : Db :=
  { next_id := 100,
    months := [{ id := 1, user_id := 1, year := 2025, month := 9,
                 is_closed := false, closed_at := none },
               { id := 2, user_id := 1, year := 2025, month := 8,
                 is_closed := false, closed_at := none }],
    budget_categories := [{ id := 2, user_id := 1, label := "Groceries",
                            default_amount := 300 }],
    fixed_expenses := [{ id := 6, user_id := 1, label := "Rent", amount := 100 }],
    monthly_budgets := [{ id := 3, month_id := 1, category_id := 2,
                          allocated_amount := 300 }],
    income_entries := [{ id := 5, month_id := 1, label := "Pay", amount := 1000 }],
    items := [{ id := 4, month_id := 1, category_id := 2, description := "food",
                amount := 91/2, spent_on := 10 }],
    monthly_snapshots := [] }

/-- A store whose single month (user 1) is already closed. -/
def dbClosed : Db :=
  { next_id := 100,
    months := [{ id := 1, user_id := 1, year := 2025, month := 9,
                 is_closed := true, closed_at := some 5 }],
    budget_categories := [{ id := 2, user_id := 1, label := "Groceries",
                            default_amount := 300 }],
    fixed_expenses := [],
    monthly_budgets := [{ id := 3, month_id := 1, category_id := 2,
                          allocated_amount := 300 }],
    income_entries := [{ id := 5, month_id := 1, label := "Pay", amount := 1000 }],
    items := [],
    monthly_snapshots := [] }

/-- A store where month 1 holds an item and an allocation whose category
(id 99) has been deleted from the templates, next to a surviving one. -/
def dbOrphan : Db :=
  { next_id := 100,
    months := [{ id := 1, user_id := 1, year := 2025, month := 9,
                 is_closed := false, closed_at := none }],
    budget_categories := [{ id := 2, user_id := 1, label := "Groceries",
                            default_amount := 300 }],
    fixed_expenses := [],
    monthly_budgets := [{ id := 3, month_id := 1, category_id := 2,
                          allocated_amount := 300 },
                        { id := 9, month_id := 1, category_id := 99,
                          allocated_amount := 40 }],
    income_entries := [],
    items := [{ id := 4, month_id := 1, category_id := 2, description := "food",
                amount := 7, spent_on := 3 },
              { id := 8, month_id := 1, category_id := 99, description := "ghost",
                amount := 5, spent_on := 2 }],
    monthly_snapshots := [] }

/-- The summary that `get_month_summary dbOrphan 1 1` produces: the
orphaned item and allocation (category 99) are absent everywhere. -/
def sOrphan : MonthSummary :=
  { month := { id := 1, user_id := 1, year := 2025, month := 9,
               is_closed := false, closed_at := none },
    income_entries := [],
    fixed_expenses := [],
    budgets := [{ id := 3, month_id := 1, category_id := 2,
                  category_label := "Groceries", allocated_amount := 300,
                  spent_amount := 7 }],
    items := [{ id := 4, month_id := 1, category_id := 2,
                category_label := "Groceries", description := "food",
                amount := 7, spent_on := 3 }],
    total_income := 0, total_fixed := 0, total_budgeted := 300,
    total_spent := 7, remaining := -7 }

/-- A store with entities of a second user (user 2): a month, a category
and a fixed expense that user 1 must not be able to touch. -/
def dbForeign : Db :=
  { next_id := 100,
    months := [{ id := 1, user_id := 1, year := 2025, month := 9,
                 is_closed := false, closed_at := none },
               { id := 50, user_id := 2, year := 2025, month := 9,
                 is_closed := false, closed_at := none }],
    budget_categories := [{ id := 7, user_id := 2, label := "Secret",
                            default_amount := 10 }],
    fixed_expenses := [{ id := 9, user_id := 2, label := "TheirRent",
                         amount := 50 }],
    monthly_budgets := [], income_entries := [], items := [],
    monthly_snapshots := [] }

/-! Basic lookup lemmas. -/

theorem find?_and_of_find?_fst {α : Type} (p q : α → Bool) (l : List α) (a : α)
    (h : l.find? p = some a) (hq : q a = true) :
    l.find? (fun x => p x && q x) = some a := by
  induction l with
  | nil => simp at h
  | cons b t ih =>
    cases hb : p b with
    | true =>
      rw [List.find?_cons, hb] at h
      cases h
      simp [List.find?_cons, hb, hq]
    | false =>
      rw [List.find?_cons, hb] at h
      simp only [List.find?_cons, hb, Bool.false_and]
      exact ih h

theorem monthByIdAndUser_spec {db : Db} {mid u : Int} {m : MonthRow}
    (h : monthByIdAndUser db mid u = some m) :
    m ∈ db.months ∧ m.id = mid ∧ m.user_id = u := by
  unfold monthByIdAndUser at h
  have hp := List.find?_some h
  simp only [Bool.and_eq_true, beq_iff_eq] at hp
  exact ⟨List.mem_of_find?_eq_some h, hp.1, hp.2⟩

theorem monthById_isSome_of {db : Db} {mid u : Int} {m : MonthRow}
    (h : monthByIdAndUser db mid u = some m) : (monthById db mid).isSome := by
  obtain ⟨hmem, hid, _⟩ := monthByIdAndUser_spec h
  unfold monthById
  exact List.find?_isSome.mpr ⟨m, hmem, by simp [hid]⟩

theorem monthByIdAndUser_of_monthById {db : Db} {mid u : Int} {m : MonthRow}
    (h : monthById db mid = some m) (hu : m.user_id = u) :
    monthByIdAndUser db mid u = some m := by
  unfold monthById at h
  unfold monthByIdAndUser
  exact find?_and_of_find?_fst _ _ _ _ h (by simp [hu])

theorem get_month_summary_isOk {db : Db} {u mid : Int}
    (h : (monthById db mid).isSome) :
    (get_month_summary db u mid).isOk = true := by
  unfold get_month_summary
  cases hm : monthById db mid with
  | none => rw [hm] at h; simp at h
  | some m => simp [hm, Except.isOk, Except.toBool]

theorem verify_month_not_closed_closed {db : Db} {u mid : Int} {m : MonthRow}
    (hfind : monthByIdAndUser db mid u = some m) (hc : m.is_closed = true) :
    verify_month_not_closed db u mid = .error (.BadRequest "Month is closed") := by
  unfold verify_month_not_closed
  rw [hfind]
  simp [hc]

theorem verify_month_not_closed_open {db : Db} {u mid : Int} {m : MonthRow}
    (hfind : monthByIdAndUser db mid u = some m) (ho : m.is_closed = false) :
    verify_month_not_closed db u mid = .ok () := by
  unfold verify_month_not_closed
  rw [hfind]
  simp [ho]

/-- C2: for a closed month owned by the caller, every create, update or
delete of an income entry, item, or budget allocation under that month
fails with `BadRequest "Month is closed"` and returns the store unchanged,
while the read of the month still succeeds. -/
theorem c2_closed_month_immutable
    (db : Db) (u mid : Int) (m : MonthRow)
    (hfind : monthByIdAndUser db mid u = some m)
    (hclosed : m.is_closed = true)
    (pInc : CreateIncome) (hInc : pInc.validate = .ok ())
    (income_id : Int) (pUInc : UpdateIncome) (hUInc : pUInc.validate = .ok ())
    (pItem : CreateItem) (hItem : pItem.validate = .ok ())
    (item_id : Int) (pUItem : UpdateItem) (hUItem : pUItem.validate = .ok ())
    (budget_id : Int) (pBud : UpdateMonthlyBudget) (hBud : pBud.validate = .ok ()) :
    create_income db u mid pInc = (.error (.BadRequest "Month is closed"), db) ∧
    update_income db u mid income_id pUInc
      = (.error (.BadRequest "Month is closed"), db) ∧
    delete_income db u mid income_id
      = (.error (.BadRequest "Month is closed"), db) ∧
    create_item db u mid pItem = (.error (.BadRequest "Month is closed"), db) ∧
    update_item db u mid item_id pUItem
      = (.error (.BadRequest "Month is closed"), db) ∧
    delete_item db u mid item_id = (.error (.BadRequest "Month is closed"), db) ∧
    update_monthly_budget db u mid budget_id pBud
      = (.error (.BadRequest "Month is closed"), db) ∧
    (get_month db u mid).isOk = true := by
  have hg := verify_month_not_closed_closed hfind hclosed
  obtain ⟨hmem, hid, huser⟩ := monthByIdAndUser_spec hfind
  refine ⟨?_, ?_, ?_, ?_, ?_, ?_, ?_, ?_⟩
  · simp [create_income, hInc, hg]
  · simp [update_income, hUInc, hg]
  · simp [delete_income, hg]
  · simp [create_item, hItem, hg]
  · simp [update_item, hUItem, hg]
  · simp [delete_item, hg]
  · simp [update_monthly_budget, hBud, hfind, hclosed]
  · have hsome := monthById_isSome_of hfind
    simp only [get_month, hfind]
    rw [hid]
    exact get_month_summary_isOk hsome

/-- C2 witness: the closed month of `dbClosed` rejects every mutation with
the closed-month error and still answers reads. -/
theorem c2_closed_month_immutable_witness :
    create_income dbClosed 1 1 { label := "Pay", amount := 10 }
      = (.error (.BadRequest "Month is closed"), dbClosed) ∧
    update_income dbClosed 1 1 5 { label := none, amount := some 20 }
      = (.error (.BadRequest "Month is closed"), dbClosed) ∧
    delete_income dbClosed 1 1 5 = (.error (.BadRequest "Month is closed"), dbClosed) ∧
    create_item dbClosed 1 1
        { category_id := 2, description := "food", amount := 3, spent_on := 1 }
      = (.error (.BadRequest "Month is closed"), dbClosed) ∧
    update_item dbClosed 1 1 4
        { category_id := none, description := none,
          amount := some 9, spent_on := none }
      = (.error (.BadRequest "Month is closed"), dbClosed) ∧
    delete_item dbClosed 1 1 4 = (.error (.BadRequest "Month is closed"), dbClosed) ∧
    update_monthly_budget dbClosed 1 1 3 { allocated_amount := 250 }
      = (.error (.BadRequest "Month is closed"), dbClosed) ∧
    (get_month dbClosed 1 1).isOk = true :=
  c2_closed_month_immutable dbClosed 1 1
    { id := 1, user_id := 1, year := 2025, month := 9, is_closed := true,
      closed_at := some 5 }
    (by decide) (by decide)
    { label := "Pay", amount := 10 } (by decide)
    5 { label := none, amount := some 20 } (by decide)
    { category_id := 2, description := "food", amount := 3, spent_on := 1 }
    (by decide)
    4
    { category_id := none, description := none, amount := some 9,
      spent_on := none } (by decide)
    3 { allocated_amount := 250 } (by decide)

/-- C10: deleting an item, income entry, category, or fixed expense whose
id matches no stored row (under an owned, open month where the guard
applies) still succeeds with 204 No Content and leaves the store
unchanged; no delete fails with NotFound for a missing target. -/
theorem c10_delete_missing_row_no_content
    (db : Db) (u mid : Int) (m : MonthRow)
    (hfind : monthByIdAndUser db mid u = some m) (hopen : m.is_closed = false)
    (item_id income_id category_id expense_id : Int)
    (hitem : ∀ i ∈ db.items, ¬(i.id = item_id ∧ i.month_id = mid))
    (hincome : ∀ e ∈ db.income_entries, ¬(e.id = income_id ∧ e.month_id = mid))
    (hcat : ∀ c ∈ db.budget_categories, ¬(c.id = category_id ∧ c.user_id = u))
    (hexp : ∀ e ∈ db.fixed_expenses, ¬(e.id = expense_id ∧ e.user_id = u)) :
    delete_item db u mid item_id = (.ok (), db) ∧
    delete_income db u mid income_id = (.ok (), db) ∧
    delete_category db u category_id = (.ok (), db) ∧
    delete_fixed_expense db u expense_id = (.ok (), db) := by
  have hg := verify_month_not_closed_open hfind hopen
  have hkeepItems :
      db.items.filter (fun i => !(i.id == item_id && i.month_id == mid))
        = db.items := by
    apply List.filter_eq_self.mpr
    intro i hi
    have := hitem i hi
    simp only [Bool.not_eq_eq_eq_not, Bool.not_true, Bool.and_eq_false_imp,
      beq_iff_eq, Bool.not_eq_true, beq_eq_false_iff_ne, ne_eq]
    intro h1 h2
    exact this ⟨h1, h2⟩
  have hkeepIncome :
      db.income_entries.filter
          (fun e => !(e.id == income_id && e.month_id == mid))
        = db.income_entries := by
    apply List.filter_eq_self.mpr
    intro e he
    have := hincome e he
    simp only [Bool.not_eq_eq_eq_not, Bool.not_true, Bool.and_eq_false_imp,
      beq_iff_eq, Bool.not_eq_true, beq_eq_false_iff_ne, ne_eq]
    intro h1 h2
    exact this ⟨h1, h2⟩
  have hkeepCats :
      db.budget_categories.filter
          (fun c => !(c.id == category_id && c.user_id == u))
        = db.budget_categories := by
    apply List.filter_eq_self.mpr
    intro c hc
    have := hcat c hc
    simp only [Bool.not_eq_eq_eq_not, Bool.not_true, Bool.and_eq_false_imp,
      beq_iff_eq, Bool.not_eq_true, beq_eq_false_iff_ne, ne_eq]
    intro h1 h2
    exact this ⟨h1, h2⟩
  have hkeepExps :
      db.fixed_expenses.filter
          (fun e => !(e.id == expense_id && e.user_id == u))
        = db.fixed_expenses := by
    apply List.filter_eq_self.mpr
    intro e he
    have := hexp e he
    simp only [Bool.not_eq_eq_eq_not, Bool.not_true, Bool.and_eq_false_imp,
      beq_iff_eq, Bool.not_eq_true, beq_eq_false_iff_ne, ne_eq]
    intro h1 h2
    exact this ⟨h1, h2⟩
  refine ⟨?_, ?_, ?_, ?_⟩
  · simp only [delete_item, hg]
    rw [hkeepItems]
  · simp only [delete_income, hg]
    rw [hkeepIncome]
  · simp only [delete_category]
    rw [hkeepCats]
  · simp only [delete_fixed_expense]
    rw [hkeepExps]

/-- C10 witness: deletes with unmatched ids on `dbOpen` all return 204 and
change nothing. -/
theorem c10_delete_missing_row_no_content_witness :
    delete_item dbOpen 1 1 77 = (.ok (), dbOpen) ∧
    delete_income dbOpen 1 1 78 = (.ok (), dbOpen) ∧
    delete_category dbOpen 1 79 = (.ok (), dbOpen) ∧
    delete_fixed_expense dbOpen 1 80 = (.ok (), dbOpen) :=
  c10_delete_missing_row_no_content dbOpen 1 1
    { id := 1, user_id := 1, year := 2025, month := 9, is_closed := false,
      closed_at := none }
    (by decide) (by decide) 77 78 79 80
    (by decide) (by decide) (by decide) (by decide)

/-- C8 counterexample: an operation referencing a category owned by another
user fails with `BadRequest "Invalid category"`, not with the not-found
error the claim requires. -/
theorem c8_foreign_category_counterexample :
    (create_item dbForeign 1 1
        { category_id := 7, description := "spy", amount := 3, spent_on := 1 })
      = (.error (.BadRequest "Invalid category"), dbForeign) ∧
    PaymeError.BadRequest "Invalid category" ≠ PaymeError.NotFound := by
  constructor
  · decide
  · decide

/-- C8 (amended): lookups and updates of a month or fixed expense owned by
another user fail with NotFound; item creation referencing another user's
category fails with `BadRequest "Invalid category"`; owner-scoped deletes
of another user's fixed expense succeed with 204 while removing nothing.
In every case the store is unchanged and no foreign data is returned. -/
theorem c8_ownership_isolation_amended
    (db : Db) (u mid mid1 expense_id : Int) (m1 : MonthRow)
    (hmonths : ∀ m ∈ db.months, m.id = mid → m.user_id ≠ u)
    (hm1 : monthByIdAndUser db mid1 u = some m1)
    (hopen1 : m1.is_closed = false)
    (pItem : CreateItem) (hvi : pItem.validate = .ok ())
    (hcats : ∀ c ∈ db.budget_categories, c.id = pItem.category_id → c.user_id ≠ u)
    (hexps : ∀ e ∈ db.fixed_expenses, e.id = expense_id → e.user_id ≠ u)
    (pUF : UpdateFixedExpense) :
    get_month db u mid = .error .NotFound ∧
    create_item db u mid1 pItem = (.error (.BadRequest "Invalid category"), db) ∧
    update_fixed_expense db u expense_id pUF = (.error .NotFound, db) ∧
    delete_fixed_expense db u expense_id = (.ok (), db) := by
  have hnoMonth : monthByIdAndUser db mid u = none := by
    unfold monthByIdAndUser
    apply List.find?_eq_none.mpr
    intro m hm
    simp only [Bool.and_eq_true, beq_iff_eq, not_and]
    intro h1 h2
    exact hmonths m hm h1 h2
  have hnoCat : categoryByIdAndUser db pItem.category_id u = none := by
    unfold categoryByIdAndUser
    apply List.find?_eq_none.mpr
    intro c hc
    simp only [Bool.and_eq_true, beq_iff_eq, not_and]
    intro h1 h2
    exact hcats c hc h1 h2
  have hnoExp : db.fixed_expenses.find?
      (fun e => e.id == expense_id && e.user_id == u) = none := by
    apply List.find?_eq_none.mpr
    intro e he
    simp only [Bool.and_eq_true, beq_iff_eq, not_and]
    intro h1 h2
    exact hexps e he h1 h2
  have hkeepExps :
      db.fixed_expenses.filter
          (fun e => !(e.id == expense_id && e.user_id == u))
        = db.fixed_expenses := by
    apply List.filter_eq_self.mpr
    intro e he
    have := hexps e he
    simp only [Bool.not_eq_eq_eq_not, Bool.not_true, Bool.and_eq_false_imp,
      beq_iff_eq, Bool.not_eq_true, beq_eq_false_iff_ne, ne_eq]
    exact this
  have hguard := verify_month_not_closed_open hm1 hopen1
  refine ⟨?_, ?_, ?_, ?_⟩
  · simp [get_month, hnoMonth]
  · simp [create_item, hvi, hguard, hnoCat]
  · simp [update_fixed_expense, hnoExp]
  · simp only [delete_fixed_expense]
    rw [hkeepExps]

/-- C8 witness: on `dbForeign`, user 1 gets NotFound for user 2's month 50
and fixed expense 9, `BadRequest "Invalid category"` for user 2's category
7, and a no-op 204 when deleting user 2's fixed expense. -/
theorem c8_ownership_isolation_amended_witness :
    get_month dbForeign 1 50 = .error .NotFound ∧
    create_item dbForeign 1 1
        { category_id := 7, description := "spy", amount := 3, spent_on := 1 }
      = (.error (.BadRequest "Invalid category"), dbForeign) ∧
    update_fixed_expense dbForeign 1 9 { label := none, amount := some 1 }
      = (.error .NotFound, dbForeign) ∧
    delete_fixed_expense dbForeign 1 9 = (.ok (), dbForeign) :=
  c8_ownership_isolation_amended dbForeign 1 50 1 9
    { id := 1, user_id := 1, year := 2025, month := 9, is_closed := false,
      closed_at := none }
    (by decide) (by decide) (by decide)
    { category_id := 7, description := "spy", amount := 3, spent_on := 1 }
    (by decide) (by decide) (by decide)
    { label := none, amount := some 1 }

/-- C7 counterexample: creating a fixed expense with a negative amount
succeeds and stores the negative row, instead of failing with the
validation error the claim requires. -/
theorem c7_negative_fixed_expense_counterexample :
    (create_fixed_expense dbEmpty 1 { label := "Rent", amount := -5 }).1
      = .ok { id := 1, user_id := 1, label := "Rent", amount := -5 } ∧
    (create_fixed_expense dbEmpty 1
        { label := "Rent", amount := -5 }).2.fixed_expenses
      = [{ id := 1, user_id := 1, label := "Rent", amount := -5 }] ∧
    ((-5 : Rat) < 0) := by
  refine ⟨?_, ?_, ?_⟩
  · decide
  · decide
  · decide

/-- C7 (amended): fixed-expense create and update perform no amount
validation at all: create always succeeds and stores exactly the payload
amount (negative included), and update stores exactly the supplied amount,
so stored FixedExpense amounts are not guaranteed nonnegative. -/
theorem c7_fixed_expense_no_validation
    (db : Db) (u expense_id : Int) (p : CreateFixedExpense)
    (pu : UpdateFixedExpense) (a : Rat) (existing : FixedExpenseRow)
    (hfe : db.fixed_expenses.find?
        (fun e => e.id == expense_id && e.user_id == u) = some existing)
    (ha : pu.amount = some a) :
    (create_fixed_expense db u p).1
      = .ok { id := db.next_id, user_id := u, label := p.label,
              amount := p.amount } ∧
    ({ id := db.next_id, user_id := u, label := p.label, amount := p.amount }
        : FixedExpenseRow) ∈ (create_fixed_expense db u p).2.fixed_expenses ∧
    (update_fixed_expense db u expense_id pu).1
      = .ok { id := expense_id, user_id := u,
              label := pu.label.getD existing.label, amount := a } := by
  refine ⟨rfl, ?_, ?_⟩
  · simp [create_fixed_expense]
  · simp [update_fixed_expense, hfe, ha]

/-- C7 witness: an update carrying amount -3 on `dbForeign`'s fixed expense
9 (owned by user 2, updated by user 2) succeeds and stores -3. -/
theorem c7_fixed_expense_no_validation_witness :
    (create_fixed_expense dbForeign 2 { label := "X", amount := -7 }).1
      = .ok { id := 100, user_id := 2, label := "X", amount := -7 } ∧
    ({ id := 100, user_id := 2, label := "X", amount := -7 } : FixedExpenseRow)
      ∈ (create_fixed_expense dbForeign 2
          { label := "X", amount := -7 }).2.fixed_expenses ∧
    (update_fixed_expense dbForeign 2 9 { label := none, amount := some (-3) }).1
      = .ok { id := 9, user_id := 2, label := "TheirRent", amount := -3 } :=
  c7_fixed_expense_no_validation dbForeign 2 9 { label := "X", amount := -7 }
    { label := none, amount := some (-3) } (-3)
    { id := 9, user_id := 2, label := "TheirRent", amount := 50 }
    (by decide) (by decide)

/-! Aggregation lemmas: the sort is a permutation, and the primary-key
joins keep exactly the rows whose category still exists. -/

theorem sortBySpentOnDesc_perm (l : List ItemWithCategory) :
    (sortBySpentOnDesc l).Perm l :=
  List.perm_insertionSort _ l

theorem sort_map_sum (l : List ItemWithCategory) :
    ((sortBySpentOnDesc l).map (fun i => i.amount)).sum
      = (l.map (fun i => i.amount)).sum :=
  List.Perm.sum_eq (List.Perm.map _ (sortBySpentOnDesc_perm l))

theorem filter_sort_map_sum (p : ItemWithCategory → Bool)
    (l : List ItemWithCategory) :
    (((sortBySpentOnDesc l).filter p).map (fun i => i.amount)).sum
      = ((l.filter p).map (fun i => i.amount)).sum :=
  List.Perm.sum_eq (List.Perm.map _ (List.Perm.filter p (sortBySpentOnDesc_perm l)))

theorem filter_comm_and {α : Type} (p q : α → Bool) (l : List α) :
    l.filter (fun a => p a && q a) = l.filter (fun a => q a && p a) :=
  List.filter_congr (fun _ _ => Bool.and_comm _ _)

theorem filterMap_joinItem_filter_amounts (db : Db) (c : Int)
    (bc : BudgetCategoryRow) (hc : categoryById db c = some bc)
    (l : List ItemRow) :
    ((l.filterMap (joinItem db)).filter (fun iw => iw.category_id == c)).map
        (fun iw => iw.amount)
      = (l.filter (fun i => i.category_id == c)).map (fun i => i.amount) := by
  induction l with
  | nil => rfl
  | cons i t ih =>
    rw [List.filterMap_cons, List.filter_cons]
    cases hj : joinItem db i with
    | none =>
      have hne : (i.category_id == c) = false := by
        cases hcc : i.category_id == c with
        | false => rfl
        | true =>
          have heq : i.category_id = c := beq_iff_eq.mp hcc
          unfold joinItem at hj
          rw [heq, hc] at hj
          simp at hj
      rw [hne]
      simpa using ih
    | some iw =>
      unfold joinItem at hj
      obtain ⟨bc2, hbc2, hrow⟩ := Option.map_eq_some'.mp hj
      subst hrow
      cases hcc : i.category_id == c with
      | true =>
        have hkeep : ((itemJoinRow i bc2).category_id == c) = true := hcc
        simp only [List.filter_cons, hkeep, hcc, if_true, List.map_cons]
        rw [ih]
        rfl
      | false =>
        have hdrop : ((itemJoinRow i bc2).category_id == c) = false := hcc
        simp only [List.filter_cons, hdrop, hcc, if_false]
        exact ih

theorem filterMap_joinItem_amounts (db : Db) (l : List ItemRow) :
    (l.filterMap (joinItem db)).map (fun iw => iw.amount)
      = (l.filter (fun i => (categoryById db i.category_id).isSome)).map
          (fun i => i.amount) := by
  induction l with
  | nil => rfl
  | cons i t ih =>
    rw [List.filterMap_cons, List.filter_cons]
    cases hj : joinItem db i with
    | none =>
      have hnone : categoryById db i.category_id = none := by
        unfold joinItem at hj
        exact Option.map_eq_none'.mp hj
      simp only [hnone, Option.isSome_none, if_false]
      exact ih
    | some iw =>
      unfold joinItem at hj
      obtain ⟨bc2, hbc2, hrow⟩ := Option.map_eq_some'.mp hj
      subst hrow
      simp only [hbc2, Option.isSome_some, if_true, List.map_cons]
      rw [ih]
      rfl

theorem filterMap_joinBudget_proj (db : Db) (l : List MonthlyBudgetRow) :
    (l.filterMap (joinBudget db)).map
        (fun b => (b.id, b.category_id, b.allocated_amount))
      = (l.filter (fun mb => (categoryById db mb.category_id).isSome)).map
          (fun mb => (mb.id, mb.category_id, mb.allocated_amount)) := by
  induction l with
  | nil => rfl
  | cons mb t ih =>
    rw [List.filterMap_cons, List.filter_cons]
    cases hj : joinBudget db mb with
    | none =>
      have hnone : categoryById db mb.category_id = none := by
        unfold joinBudget at hj
        exact Option.map_eq_none'.mp hj
      simp only [hnone, Option.isSome_none, if_false]
      exact ih
    | some bw =>
      unfold joinBudget at hj
      obtain ⟨bc2, hbc2, hrow⟩ := Option.map_eq_some'.mp hj
      subst hrow
      simp only [hbc2, Option.isSome_some, if_true, List.map_cons]
      rw [ih]
      rfl

theorem filterMap_joinBudget_alloc (db : Db) (l : List MonthlyBudgetRow) :
    (l.filterMap (joinBudget db)).map (fun b => b.allocated_amount)
      = (l.filter (fun mb => (categoryById db mb.category_id).isSome)).map
          (fun mb => mb.allocated_amount) := by
  have h := congrArg (List.map (fun t : Int × Int × Rat => t.2.2))
    (filterMap_joinBudget_proj db l)
  rw [List.map_map, List.map_map] at h
  exact h

/-! Shape of the summary produced by a successful `get_month_summary`. -/

theorem get_month_summary_budgets {db : Db} {u mid : Int} {m : MonthRow}
    {s : MonthSummary} (hm : monthById db mid = some m)
    (h : get_month_summary db u mid = .ok s) :
    s.budgets = (joinedBudgets db mid).map (fun b =>
      { b with spent_amount :=
          (((sortBySpentOnDesc (joinedItems db mid)).filter
            (fun i => i.category_id == b.category_id)).map
              (fun i => i.amount)).sum }) := by
  unfold get_month_summary at h
  rw [hm] at h
  cases h
  rfl

theorem get_month_summary_total_spent {db : Db} {u mid : Int} {m : MonthRow}
    {s : MonthSummary} (hm : monthById db mid = some m)
    (h : get_month_summary db u mid = .ok s) :
    s.total_spent = ((sortBySpentOnDesc (joinedItems db mid)).map
      (fun i => i.amount)).sum := by
  unfold get_month_summary at h
  rw [hm] at h
  cases h
  rfl

theorem get_month_summary_total_budgeted {db : Db} {u mid : Int} {m : MonthRow}
    {s : MonthSummary} (hm : monthById db mid = some m)
    (h : get_month_summary db u mid = .ok s) :
    s.total_budgeted
      = ((joinedBudgets db mid).map (fun b => b.allocated_amount)).sum := by
  unfold get_month_summary at h
  rw [hm] at h
  cases h
  show (((joinedBudgets db mid).map (fun b : MonthlyBudgetWithCategory =>
      { b with spent_amount :=
          (((sortBySpentOnDesc (joinedItems db mid)).filter
            (fun i : ItemWithCategory => i.category_id == b.category_id)).map
              (fun i : ItemWithCategory => i.amount)).sum })).map
        (fun b => b.allocated_amount)).sum
    = ((joinedBudgets db mid).map (fun b => b.allocated_amount)).sum
  rw [List.map_map]
  rfl

/-- C5: every budget line of a successful summary carries a spent_amount
equal to the sum of the month's item amounts with the same category id
(zero when no item matches). -/
theorem c5_spent_amount_correct
    (db : Db) (u mid : Int) (s : MonthSummary)
    (h : get_month_summary db u mid = .ok s) :
    ∀ b ∈ s.budgets,
      b.spent_amount
        = ((db.items.filter
            (fun i => i.month_id == mid && i.category_id == b.category_id)).map
              (fun i => i.amount)).sum := by
  intro b hb
  cases hm : monthById db mid with
  | none =>
    unfold get_month_summary at h
    rw [hm] at h
    exact absurd h (by simp)
  | some m =>
    rw [get_month_summary_budgets hm h] at hb
    obtain ⟨b0, hb0, hbeq⟩ := List.mem_map.mp hb
    obtain ⟨mb, hmb, hj⟩ := List.mem_filterMap.mp hb0
    unfold joinBudget at hj
    obtain ⟨bc, hbc, hrow⟩ := Option.map_eq_some'.mp hj
    subst hrow
    subst hbeq
    show (((sortBySpentOnDesc (joinedItems db mid)).filter
        (fun i => i.category_id == (budgetJoinRow mb bc).category_id)).map
          (fun i => i.amount)).sum
      = ((db.items.filter (fun i => i.month_id == mid &&
          i.category_id == (budgetJoinRow mb bc).category_id)).map
            (fun i => i.amount)).sum
    rw [filter_sort_map_sum]
    unfold joinedItems
    rw [filterMap_joinItem_filter_amounts db (budgetJoinRow mb bc).category_id bc hbc]
    rw [List.filter_filter, filter_comm_and]

set_option maxRecDepth 10000 in
/-- C5 witness: the single budget line of `dbOrphan`'s summary carries the
sum of the matching items. -/
theorem c5_spent_amount_correct_witness :
    ({ id := 3, month_id := 1, category_id := 2, category_label := "Groceries",
       allocated_amount := 300, spent_amount := 7 }
        : MonthlyBudgetWithCategory).spent_amount
      = ((dbOrphan.items.filter
          (fun i => i.month_id == 1 && i.category_id == 2)).map
            (fun i => i.amount)).sum :=
  c5_spent_amount_correct dbOrphan 1 1 sOrphan (by with_unfolding_all decide)
    { id := 3, month_id := 1, category_id := 2, category_label := "Groceries",
      allocated_amount := 300, spent_amount := 7 }
    (by with_unfolding_all decide)

set_option maxRecDepth 10000 in
/-- C1 counterexample: in `dbOrphan`, month 1 holds an item of amount 5
whose category was deleted; the summary's total_spent is 7, while the sum
over every item of the month is 12, so the claimed equation fails. -/
theorem c1_total_spent_counterexample :
    (get_month_summary dbOrphan 1 1).map (fun s => s.total_spent) = .ok 7 ∧
    ((dbOrphan.items.filter (fun i => i.month_id == 1)).map
      (fun i => i.amount)).sum = 12 ∧
    (7 : Rat) ≠ 12 := by
  refine ⟨?_, ?_, ?_⟩
  · with_unfolding_all decide
  · with_unfolding_all decide
  · with_unfolding_all decide

/-- C1 (amended): total_spent equals the sum of the amounts of the month's
items whose category row still exists; items whose category was deleted
are dropped by the inner join and do not count toward total_spent. -/
theorem c1_total_spent_joined_items
    (db : Db) (u mid : Int) (s : MonthSummary)
    (h : get_month_summary db u mid = .ok s) :
    s.total_spent
      = ((db.items.filter (fun i => i.month_id == mid &&
          (categoryById db i.category_id).isSome)).map
            (fun i => i.amount)).sum := by
  cases hm : monthById db mid with
  | none =>
    unfold get_month_summary at h
    rw [hm] at h
    exact absurd h (by simp)
  | some m =>
    rw [get_month_summary_total_spent hm h]
    rw [sort_map_sum]
    unfold joinedItems
    rw [filterMap_joinItem_amounts]
    rw [List.filter_filter, filter_comm_and]

set_option maxRecDepth 10000 in
/-- C1 amended-claim witness at `dbOrphan`. -/
theorem c1_total_spent_joined_items_witness :
    sOrphan.total_spent
      = ((dbOrphan.items.filter (fun i => i.month_id == 1 &&
          (categoryById dbOrphan i.category_id).isSome)).map
            (fun i => i.amount)).sum :=
  c1_total_spent_joined_items dbOrphan 1 1 sOrphan (by with_unfolding_all decide)

/-- C9: an allocation row whose category template was deleted is omitted
from the summary's budgets list and contributes nothing to total_budgeted;
the returned budgets are exactly the month's allocations whose category
still exists. -/
theorem c9_orphaned_allocation_omitted
    (db : Db) (u mid : Int) (s : MonthSummary)
    (h : get_month_summary db u mid = .ok s) :
    s.budgets.map (fun b => (b.id, b.category_id, b.allocated_amount))
      = ((db.monthly_budgets.filter (fun mb => mb.month_id == mid &&
          (categoryById db mb.category_id).isSome)).map
            (fun mb => (mb.id, mb.category_id, mb.allocated_amount))) ∧
    s.total_budgeted
      = ((db.monthly_budgets.filter (fun mb => mb.month_id == mid &&
          (categoryById db mb.category_id).isSome)).map
            (fun mb => mb.allocated_amount)).sum := by
  cases hm : monthById db mid with
  | none =>
    unfold get_month_summary at h
    rw [hm] at h
    exact absurd h (by simp)
  | some m =>
    constructor
    · rw [get_month_summary_budgets hm h]
      rw [List.map_map]
      show (joinedBudgets db mid).map
          (fun b => (b.id, b.category_id, b.allocated_amount)) = _
      unfold joinedBudgets
      rw [filterMap_joinBudget_proj]
      rw [List.filter_filter, filter_comm_and]
    · rw [get_month_summary_total_budgeted hm h]
      unfold joinedBudgets
      rw [filterMap_joinBudget_alloc]
      rw [List.filter_filter, filter_comm_and]

set_option maxRecDepth 10000 in
/-- C9 witness: `dbOrphan`'s orphaned allocation (id 9, category 99) is
absent from the summary's budgets and from total_budgeted. -/
theorem c9_orphaned_allocation_omitted_witness :
    sOrphan.budgets.map (fun b => (b.id, b.category_id, b.allocated_amount))
      = ((dbOrphan.monthly_budgets.filter (fun mb => mb.month_id == 1 &&
          (categoryById dbOrphan mb.category_id).isSome)).map
            (fun mb => (mb.id, mb.category_id, mb.allocated_amount))) ∧
    sOrphan.total_budgeted
      = ((dbOrphan.monthly_budgets.filter (fun mb => mb.month_id == 1 &&
          (categoryById dbOrphan mb.category_id).isSome)).map
            (fun mb => mb.allocated_amount)).sum :=
  c9_orphaned_allocation_omitted dbOrphan 1 1 sOrphan (by with_unfolding_all decide)

/-! Lemmas about `close_month`. -/

theorem get_month_summary_exists {db : Db} {u mid : Int}
    (h : (monthById db mid).isSome) :
    ∃ s, get_month_summary db u mid = .ok s := by
  have hOk := get_month_summary_isOk (u := u) h
  cases hg : get_month_summary db u mid with
  | error e => rw [hg] at hOk; simp [Except.isOk, Except.toBool] at hOk
  | ok s => exact ⟨s, rfl⟩

theorem find?_map_stable {α : Type} (f : α → α) (p : α → Bool)
    (hf : ∀ a, p (f a) = p a) (l : List α) :
    (l.map f).find? p = (l.find? p).map f := by
  induction l with
  | nil => rfl
  | cons a t ih =>
    rw [List.map_cons]
    cases ha : p a with
    | true => simp [List.find?_cons, hf, ha]
    | false => simp [List.find?_cons, hf, ha, ih]

theorem closeMonthUpdate_id_stable (mid now : Int) (x : MonthRow) :
    ((closeMonthUpdate mid now x).id == mid) = (x.id == mid) := by
  unfold closeMonthUpdate
  split <;> rfl

theorem closeMonthUpdate_id_user_stable (mid now u : Int) (x : MonthRow) :
    ((closeMonthUpdate mid now x).id == mid
      && (closeMonthUpdate mid now x).user_id == u)
    = (x.id == mid && x.user_id == u) := by
  unfold closeMonthUpdate
  split <;> rfl

/-- C3: if PDF generation fails, or the snapshot insert fails, close_month
returns an error and the store — in particular the month's is_closed flag
and closed_at — is unchanged; the flag is only flipped after the snapshot
row has been appended on the success path. -/
theorem c3_close_month_failure_no_partial
    (db : Db) (u mid : Int) (m : MonthRow)
    (hm : monthById db mid = some m) (hu : m.user_id = u)
    (hopen : m.is_closed = false)
    (render1 render2 : MonthSummary → Except String (List Nat))
    (msg : String) (bytes : List Nat) (snapOk : Bool) (now now2 : Int)
    (h1 : ∀ s, render1 s = .error msg) (h2 : ∀ s, render2 s = .ok bytes) :
    close_month render1 snapOk now db u mid = (.error (.Internal msg), db) ∧
    close_month render2 false now2 db u mid
      = (.error (.Database "InsertFailed"), db) := by
  have hfind := monthByIdAndUser_of_monthById hm hu
  obtain ⟨s, hs⟩ := get_month_summary_exists (u := u)
    (Option.isSome_iff_exists.mpr ⟨m, hm⟩)
  constructor
  · simp [close_month, hfind, hopen, hs, h1]
  · simp [close_month, hfind, hopen, hs, h2]

/-- C3 witness: on `dbOpen`, a failing renderer and a failing snapshot
insert both leave the store untouched and surface an error. -/
theorem c3_close_month_failure_no_partial_witness :
    close_month (fun _ => .error "boom") true 0 dbOpen 1 1
      = (.error (.Internal "boom"), dbOpen) ∧
    close_month (fun _ => .ok []) false 0 dbOpen 1 1
      = (.error (.Database "InsertFailed"), dbOpen) :=
  c3_close_month_failure_no_partial dbOpen 1 1
    { id := 1, user_id := 1, year := 2025, month := 9, is_closed := false,
      closed_at := none }
    (by decide) (by decide) (by decide)
    (fun _ => .error "boom") (fun _ => .ok []) "boom" [] true 0 0
    (fun _ => rfl) (fun _ => rfl)

/-- C4: closing an open owned month with no prior snapshot succeeds,
appends exactly one snapshot row for it and flips is_closed; a second
close on the same month fails with the already-closed error, changing
nothing and adding no snapshot. -/
theorem c4_close_month_once_then_error
    (db : Db) (u mid : Int) (m : MonthRow)
    (hm : monthById db mid = some m) (hu : m.user_id = u)
    (hopen : m.is_closed = false)
    (render : MonthSummary → Except String (List Nat)) (bytes : List Nat)
    (now : Int) (hrender : ∀ s, render s = .ok bytes)
    (hnosnap : ∀ sn ∈ db.monthly_snapshots, sn.month_id ≠ mid) :
    ∃ updated db2,
      close_month render true now db u mid = (.ok updated, db2) ∧
      updated.is_closed = true ∧ updated.closed_at = some now ∧
      updated.id = mid ∧
      (db2.monthly_snapshots.filter (fun sn => sn.month_id == mid)).length = 1 ∧
      ∀ render2 snapOk2 now2,
        close_month render2 snapOk2 now2 db2 u mid
          = (.error (.BadRequest "Month is already closed"), db2) := by
  have hfind := monthByIdAndUser_of_monthById hm hu
  obtain ⟨s, hs⟩ := get_month_summary_exists (u := u)
    (Option.isSome_iff_exists.mpr ⟨m, hm⟩)
  have hid : m.id = mid := (monthByIdAndUser_spec hfind).2.1
  have hupd : closeMonthUpdate mid now m
      = { m with is_closed := true, closed_at := some now } := by
    simp [closeMonthUpdate, hid]
  have hmapped :
      (db.months.map (closeMonthUpdate mid now)).find? (fun x => x.id == mid)
        = some { m with is_closed := true, closed_at := some now } := by
    rw [find?_map_stable (closeMonthUpdate mid now) (fun x => x.id == mid)
      (closeMonthUpdate_id_stable mid now)]
    have hm' : db.months.find? (fun x => x.id == mid) = some m := hm
    rw [hm']
    simp [hupd]
  have hmapped2 :
      (db.months.map (closeMonthUpdate mid now)).find?
          (fun x => x.id == mid && x.user_id == u)
        = some { m with is_closed := true, closed_at := some now } := by
    rw [find?_map_stable (closeMonthUpdate mid now)
      (fun x => x.id == mid && x.user_id == u)
      (closeMonthUpdate_id_user_stable mid now u)]
    have hf' : db.months.find? (fun x => x.id == mid && x.user_id == u)
        = some m := hfind
    rw [hf']
    simp [hupd]
  have hfilter : db.monthly_snapshots.filter (fun sn => sn.month_id == mid)
      = [] := by
    rw [List.filter_eq_nil_iff]
    intro sn hsn
    simp [hnosnap sn hsn]
  refine ⟨{ m with is_closed := true, closed_at := some now },
    { db with
        monthly_snapshots :=
          db.monthly_snapshots ++ [{ month_id := mid, pdf_data := bytes }],
        months := db.months.map (closeMonthUpdate mid now) },
    ?_, rfl, rfl, hid, ?_, ?_⟩
  · simp only [close_month, hfind, hopen, Bool.false_eq_true, if_false, hs,
      hrender, if_true]
    simp only [monthById, hmapped]
  · rw [List.filter_append, hfilter]
    simp
  · intro render2 snapOk2 now2
    simp only [close_month, monthByIdAndUser, hmapped2]
    rfl

/-- C4 witness: closing `dbOpen`'s month 1 once succeeds with one snapshot;
the second attempt fails with the already-closed error. -/
theorem c4_close_month_once_then_error_witness :
    ∃ updated db2,
      close_month (fun _ => .ok [7]) true 99 dbOpen 1 1 = (.ok updated, db2) ∧
      updated.is_closed = true ∧ updated.closed_at = some 99 ∧
      updated.id = 1 ∧
      (db2.monthly_snapshots.filter (fun sn => sn.month_id == 1)).length = 1 ∧
      ∀ render2 snapOk2 now2,
        close_month render2 snapOk2 now2 db2 1 1
          = (.error (.BadRequest "Month is already closed"), db2) :=
  c4_close_month_once_then_error dbOpen 1 1
    { id := 1, user_id := 1, year := 2025, month := 9, is_closed := false,
      closed_at := none }
    (by decide) (by decide) (by decide)
    (fun _ => .ok [7]) [7] 99 (fun _ => rfl) (by decide)

/-! Lemmas about category propagation. -/

theorem insertOrIgnoreBudget_existing (db : Db) (mid cid : Int) (amt : Rat)
    (h : db.monthly_budgets.any
      (fun b => b.month_id == mid && b.category_id == cid) = true) :
    insertOrIgnoreBudget db mid cid amt = db := by
  simp [insertOrIgnoreBudget, h]

theorem propagateToMonths_fresh (cid : Int) (amt : Rat) :
    ∀ (mids : List Int) (db : Db),
      (∀ b ∈ db.monthly_budgets, b.category_id = cid → b.month_id ∉ mids) →
      mids.Nodup →
      (propagateToMonths cid amt mids db).monthly_budgets.map
          (fun b => (b.month_id, b.category_id, b.allocated_amount))
        = db.monthly_budgets.map
            (fun b => (b.month_id, b.category_id, b.allocated_amount))
          ++ mids.map (fun mid => (mid, cid, amt)) := by
  intro mids
  induction mids with
  | nil =>
    intro db h hnd
    simp [propagateToMonths]
  | cons mid rest ih =>
    intro db h hnd
    have hany : db.monthly_budgets.any
        (fun b => b.month_id == mid && b.category_id == cid) = false := by
      cases hA : db.monthly_budgets.any
          (fun b => b.month_id == mid && b.category_id == cid) with
      | false => rfl
      | true =>
        obtain ⟨b, hb, hpb⟩ := List.any_eq_true.mp hA
        simp only [Bool.and_eq_true, beq_iff_eq] at hpb
        have hnot := h b hb hpb.2
        rw [hpb.1] at hnot
        exact absurd (List.mem_cons_self mid rest) hnot
    have hstep : insertOrIgnoreBudget db mid cid amt
        = { db with
            next_id := db.next_id + 1,
            monthly_budgets := db.monthly_budgets ++
              [{ id := db.next_id, month_id := mid, category_id := cid,
                 allocated_amount := amt }] } := by
      simp [insertOrIgnoreBudget, hany]
    have hfresh' : ∀ b ∈ (insertOrIgnoreBudget db mid cid amt).monthly_budgets,
        b.category_id = cid → b.month_id ∉ rest := by
      rw [hstep]
      intro b hb hcat
      rcases List.mem_append.mp hb with hold | hnew
      · intro hr
        exact h b hold hcat (List.mem_cons_of_mem _ hr)
      · have hbeq : b
            = { id := db.next_id, month_id := mid, category_id := cid,
                allocated_amount := amt } := by
          simpa using hnew
        subst hbeq
        exact (List.nodup_cons.mp hnd).1
    have hnd' := (List.nodup_cons.mp hnd).2
    show (propagateToMonths cid amt rest
        (insertOrIgnoreBudget db mid cid amt)).monthly_budgets.map _ = _
    rw [ih _ hfresh' hnd', hstep]
    simp

/-- C6: creating a category while the user has N open months inserts
exactly N new allocation rows, one per open month, each carrying the
category default amount; with 0 open months it inserts 0 rows; and an
ignore-on-duplicate insert for an already-present (month, category) pair
is a no-op. -/
theorem c6_category_propagation
    (db : Db) (u : Int) (p : CreateCategory)
    (hv : p.validate = .ok ())
    (hfresh : ∀ b ∈ db.monthly_budgets, b.category_id ≠ db.next_id)
    (hnodup : (db.months.map (fun m => m.id)).Nodup) :
    ∃ db2,
      create_category db u p
        = (.ok { id := db.next_id, user_id := u, label := p.label,
                 default_amount := p.default_amount }, db2) ∧
      db2.monthly_budgets.map
          (fun b => (b.month_id, b.category_id, b.allocated_amount))
        = db.monthly_budgets.map
            (fun b => (b.month_id, b.category_id, b.allocated_amount))
          ++ ((db.months.filter
              (fun m => m.user_id == u && m.is_closed == false)).map
                (fun m => m.id)).map
              (fun mid => (mid, db.next_id, p.default_amount)) ∧
      db2.monthly_budgets.length
        = db.monthly_budgets.length
          + (db.months.filter
              (fun m => m.user_id == u && m.is_closed == false)).length ∧
      (∀ (dbx : Db) (midx cidx : Int) (amtx : Rat),
        dbx.monthly_budgets.any
          (fun b => b.month_id == midx && b.category_id == cidx) = true →
        insertOrIgnoreBudget dbx midx cidx amtx = dbx) := by
  have hopenNodup : ((db.months.filter
      (fun m => m.user_id == u && m.is_closed == false)).map
        (fun m => m.id)).Nodup :=
    hnodup.sublist (List.Sublist.map _ (List.filter_sublist _))
  have hfresh' : ∀ b ∈ db.monthly_budgets, b.category_id = db.next_id →
      b.month_id ∉ (db.months.filter
        (fun m => m.user_id == u && m.is_closed == false)).map
          (fun m => m.id) :=
    fun b hb hc => absurd hc (hfresh b hb)
  have hprop := propagateToMonths_fresh db.next_id p.default_amount
    ((db.months.filter (fun m => m.user_id == u && m.is_closed == false)).map
      (fun m => m.id))
    { db with
      next_id := db.next_id + 1,
      budget_categories := db.budget_categories ++
        [{ id := db.next_id, user_id := u, label := p.label,
           default_amount := p.default_amount }] }
    hfresh' hopenNodup
  refine ⟨propagateToMonths db.next_id p.default_amount
      ((db.months.filter (fun m => m.user_id == u && m.is_closed == false)).map
        (fun m => m.id))
      { db with
        next_id := db.next_id + 1,
        budget_categories := db.budget_categories ++
          [{ id := db.next_id, user_id := u, label := p.label,
             default_amount := p.default_amount }] },
    ?_, ?_, ?_, fun dbx midx cidx amtx h =>
      insertOrIgnoreBudget_existing dbx midx cidx amtx h⟩
  · simp only [create_category, hv]
  · exact hprop
  · have hlen := congrArg List.length hprop
    simpa using hlen

/-- C6 witness: creating a category on `dbOpen` (two open months) inserts
exactly two allocation rows at the default amount. -/
theorem c6_category_propagation_witness :
    ∃ db2,
      create_category dbOpen 1 { label := "Fun", default_amount := 50 }
        = (.ok { id := 100, user_id := 1, label := "Fun",
                 default_amount := 50 }, db2) ∧
      db2.monthly_budgets.map
          (fun b => (b.month_id, b.category_id, b.allocated_amount))
        = dbOpen.monthly_budgets.map
            (fun b => (b.month_id, b.category_id, b.allocated_amount))
          ++ ((dbOpen.months.filter
              (fun m => m.user_id == 1 && m.is_closed == false)).map
                (fun m => m.id)).map (fun mid => (mid, 100, 50)) ∧
      db2.monthly_budgets.length
        = dbOpen.monthly_budgets.length
          + (dbOpen.months.filter
              (fun m => m.user_id == 1 && m.is_closed == false)).length ∧
      (∀ (dbx : Db) (midx cidx : Int) (amtx : Rat),
        dbx.monthly_budgets.any
          (fun b => b.month_id == midx && b.category_id == cidx) = true →
        insertOrIgnoreBudget dbx midx cidx amtx = dbx) :=
  c6_category_propagation dbOpen 1 { label := "Fun", default_amount := 50 }
    (by decide) (by decide) (by decide)

end Payme



